import Mathlib

/-!
Verification development for the nerve-api-examples repository.

The Python modules `nerve/nodes.py` and `nerve/utils.py` are shallowly
embedded below.  Dynamically typed JSON-like data is modelled by the
inductive type `JVal`; Python runtime failures (exceptions) are modelled
by the error type `PyErr` together with `Except`.  Remote HTTP endpoints
consumed by the tree walker are modelled as a snapshot record `Remote`;
the standard-library services `json.loads` and `re.compile` are passed in
as explicit parameters wherever the source calls them.
-/

namespace Nerve

/-- Errors a run of the embedded code can surface: the two exception
classes declared in `nerve/utils.py` plus the Python builtin exceptions
the code can raise implicitly. -/
inductive PyErr where
  | dataNotAsExpected (msg : String)
  | actionUnsuccessful (msg : String)
  | requestFailed (msg : String)
  | valueError (msg : String)
  | typeError
  | indexError
  | keyError
  | attributeError
  | recursionError
  | jsonError
deriving DecidableEq, Repr

/-- JSON-like dynamic values manipulated by the Python code. -/
inductive JVal where
  | str (s : String)
  | int (n : Int)
  | bool (b : Bool)
  | null
  | list (xs : List JVal)
  | dict (kvs : List (String × JVal))
deriving Inhabited

/-- Remove the first binding for `key` from an association list,
returning the value and the remaining bindings. -/
def popKey : List (String × JVal) → String → Option (JVal × List (String × JVal))
  | [], _ => none
  | (k, v) :: rest, key =>
      if k == key then some (v, rest)
      else (popKey rest key).map (fun p => (p.1, (k, v) :: p.2))

/-- Python `==` on the embedded dynamic values: structural equality with
the numeric `bool`/`int` coercion, elementwise on lists, and key-based
(order-insensitive) on dicts. -/
def jvalBeq : JVal → JVal → Bool
  | .str a, .str b => a == b
  | .int a, .int b => a == b
  | .bool a, .bool b => a == b
  | .bool a, .int b => (if a then (1 : Int) else 0) == b
  | .int a, .bool b => a == (if b then (1 : Int) else 0)
  | .null, .null => true
  | .list [], .list [] => true
  | .list (a :: as), .list (b :: bs) => jvalBeq a b && jvalBeq (.list as) (.list bs)
  | .dict [], .dict [] => true
  | .dict ((k, v) :: as), .dict bs =>
      match popKey bs k with
      | some (w, bs') => jvalBeq v w && jvalBeq (.dict as) (.dict bs')
      | none => false
  | _, _ => false
termination_by a _ => sizeOf a
decreasing_by all_goals (simp_wf <;> omega)

instance : BEq JVal := ⟨jvalBeq⟩

/-- First binding for a key in an association list (Python `dict` lookup;
dict literals in this development carry no duplicate keys). -/
def dGet (kvs : List (String × JVal)) (k : String) : Option JVal :=
  (kvs.find? (fun kv => kv.1 == k)).map (·.2)

/-- Python `d.get(k)`: `None` for a missing key, `AttributeError` when the
receiver is not a dict. -/
def pyGet (d : JVal) (k : String) : Except PyErr JVal :=
  match d with
  | .dict kvs => .ok ((dGet kvs k).getD .null)
  | _ => .error .attributeError

/-- Substring test on character lists. -/
def listContains (needle hay : List Char) : Bool :=
  (List.range (hay.length + 1)).any (fun i => needle.isPrefixOf (hay.drop i))

/-- Python `k in d` for a string `k`: key membership for dicts, element
membership for lists, substring test for strings, `TypeError` otherwise. -/
def pyIn (d : JVal) (key : String) : Except PyErr Bool :=
  match d with
  | .dict kvs => .ok (kvs.any (fun kv => kv.1 == key))
  | .list xs => .ok (xs.any (fun x => jvalBeq x (.str key)))
  | .str s => .ok (listContains key.data s.data)
  | _ => .error .typeError

/-- Python `len`. -/
def pyLen (d : JVal) : Except PyErr Nat :=
  match d with
  | .list xs => .ok xs.length
  | .str s => .ok s.data.length
  | .dict kvs => .ok kvs.length
  | _ => .error .typeError

/-- Python list indexing with negative-index wraparound. -/
def pyListIdx (xs : List JVal) (i : Int) : Except PyErr JVal :=
  if 0 ≤ i then
    match xs.get? i.toNat with
    | some v => .ok v
    | none => .error .indexError
  else
    match xs.get? (xs.length - (-i).toNat) with
    | some v => if (-i).toNat ≤ xs.length then .ok v else .error .indexError
    | none => .error .indexError

/-- Python subscription `d[k]`. -/
def pySubscript (d : JVal) (k : JVal) : Except PyErr JVal :=
  match d, k with
  | .list xs, .int i => pyListIdx xs i
  | .list xs, .bool b => pyListIdx xs (if b then 1 else 0)
  | .str s, .int i =>
      pyListIdx (s.data.map (fun c => JVal.str (String.singleton c))) i
  | .str s, .bool b =>
      pyListIdx (s.data.map (fun c => JVal.str (String.singleton c))) (if b then 1 else 0)
  | .dict kvs, .str key =>
      match dGet kvs key with
      | some v => .ok v
      | none => .error .keyError
  | .dict _, .list _ => .error .typeError
  | .dict _, .dict _ => .error .typeError
  | .dict _, _ => .error .keyError
  | _, _ => .error .typeError

/-- Python truthiness of a dynamic value. -/
def jvalTruthy : JVal → Bool
  | .str s => !(s == "")
  | .int n => !(n == 0)
  | .bool b => b
  | .null => false
  | .list xs => !xs.isEmpty
  | .dict kvs => !kvs.isEmpty

/-- Display name used in the `complainIfNotAList` error message. -/
def pyTypeName : JVal → String
  | .str _ => "str"
  | .int _ => "int"
  | .bool _ => "bool"
  | .null => "NoneType"
  | .list _ => "list"
  | .dict _ => "dict"

/-- Keys of `keys` that are missing from `d` (probing with Python `in`,
propagating a `TypeError` from an unsupported container). -/
def missingKeys (d : JVal) : List String → Except PyErr (List String)
  | [] => .ok []
  | k :: ks => do
      let b ← pyIn d k
      let rest ← missingKeys d ks
      .ok (if b then rest else k :: rest)

/-- Embeds `utils.complainIfKeysAreNotInDict`. -/
def complainIfKeysAreNotInDict (d : JVal) (keys : List String) : Except PyErr Unit := do
  let missing ← missingKeys d keys
  if missing.isEmpty then .ok ()
  else .error (.dataNotAsExpected ("Missing expected keys: " ++ String.intercalate ", " missing))

/-- Embeds `utils.complainIfNotAList` (the decoder calls it without the
optional length argument). -/
def complainIfNotAList (d : JVal) (length : Option Nat := none) : Except PyErr Unit :=
  match d with
  | .list xs =>
      match length with
      | none => .ok ()
      | some n =>
          if xs.length = n then .ok ()
          else .error (.dataNotAsExpected ("Expected a list of length " ++ toString n ++ ", got " ++ toString xs.length))
  | _ => .error (.dataNotAsExpected ("Expected a list, got " ++ pyTypeName d))

/-- Python comparison of a dynamic value against a string literal. -/
def isStrEq (v : JVal) (s : String) : Bool :=
  match v with
  | .str t => t == s
  | _ => false

/-- Embeds `utils.findDictByValue`: first record whose field (read with
`.get`, so `none` for an absent key) equals the requested value. -/
def findDictByValue {α β : Type} [BEq β] (d : List α) (key : α → Option β) (value : β) : Option α :=
  d.find? (fun item => key item == some value)

/-- Normalized deployed-workload record produced by the device record
decoder (`nodes.get_deployed_workloads_from_node`, loop body). -/
structure DeployedWl where
  name : JVal
  type : JVal
  _id : JVal
  version_id : JVal
  version_name : JVal
  state : JVal
  device_id : JVal

/-- Embeds the body of the `for wl in data` loop of
`nodes.get_deployed_workloads_from_node` (lines 196-246): decodes one raw
device/service record into a `DeployedWl`.  The standard-library JSON
parser `json.loads` is passed in as `jls`. -/
def decodeDeviceRecord (jls : String → Except PyErr JVal) (wl : JVal) : Except PyErr DeployedWl := do
  complainIfKeysAreNotInDict wl ["device_name", "device_model_name", "service_list"]
  let name ← pyGet wl "device_name"
  let ty ← pyGet wl "device_model_name"
  let service_list ← pyGet wl "service_list"
  let n ← pyLen service_list
  if n ≠ 2 then
    throw (.actionUnsuccessful "Expected 2 services in response to getting deployed workloads.")
  let service ← pySubscript service_list (.int 0)
  let property_list ← pyGet service "property_list"
  let property ← pySubscript property_list (.int 0)
  complainIfKeysAreNotInDict property ["value"]
  let value_as_string ← pyGet property "value"
  let value ← match value_as_string with
    | .str s => jls s
    | _ => .error .typeError
  complainIfKeysAreNotInDict value ["workloadId", "versionId", "workloadVersionName"]
  let workload_id ← pyGet value "workloadId"
  let version_id ← pyGet value "versionId"
  let workload_version_name ← pyGet value "workloadVersionName"
  let service1 ← pySubscript service_list (.int 1)
  let property_list1 ← pyGet service1 "property_list"
  let property1 ← pySubscript property_list1 (.int 2)
  complainIfKeysAreNotInDict property1 ["name", "options", "value"]
  let nm ← pyGet property1 "name"
  if !(isStrEq nm "State") then
    throw (.actionUnsuccessful "Expected name:State in response to getting deployed workloads.")
  let options ← pyGet property1 "options"
  complainIfNotAList options
  let value1 ← pyGet property1 "value"
  let state ← pySubscript options value1
  let device_id ← pyGet wl "id"
  .ok { name := name, type := ty, _id := workload_id, version_id := version_id,
        version_name := workload_version_name, state := state, device_id := device_id }

/-! ## Filter engine (`utils.create_regex` and pattern matching)

`create_regex` produces a compiled `re.Pattern`; the three mutually
exclusive shapes a compiled pattern can take are mirrored by
`CompiledPat`.  A literal (non-`regex:`) filter string is compiled as
`\b` + `re.escape(text)` + `\b`, which always compiles, so only the
`regex:`-prefixed branch can hit the `re.error` fallback; the behaviour
of `re.compile` on a raw user regex is abstracted as the parameter
`reCompile`, and the behaviour of executing such a compiled raw regex
with `.match` as the parameter `exec`. -/

/-- Compiled pattern shapes produced by `create_regex`. -/
inductive CompiledPat (μ : Type) where
  | matchAll
  | literalWord (lit : String)
  | custom (m : μ)

/-- Prefix test on strings via their character lists. -/
def strStartsWith (s pre : String) : Bool :=
  pre.data.isPrefixOf s.data

/-- Drop the first `n` characters of a string. -/
def strDropN (s : String) (n : Nat) : String :=
  ⟨s.data.drop n⟩

/-- Embeds `utils.create_regex`: `None` compiles to `.*` (match
everything); a `regex:`-prefixed string compiles its remainder as a raw
regex, degrading to `.*` when `re.compile` fails; any other string is
escaped and wrapped in word boundaries (always compiles). -/
def create_regex {μ : Type} (reCompile : String → Option μ) : Option String → CompiledPat μ
  | none => .matchAll
  | some p =>
      if strStartsWith p "regex:" then
        match reCompile (strDropN p ("regex:".data.length)) with
        | some m => .custom m
        | none => .matchAll
      else .literalWord p

/-- Word characters of the regex metacharacter `\b` (ASCII scope). -/
def isWordChar (c : Char) : Bool :=
  c.isAlphanum || c == '_'

/-- Whether position `i` of `t` holds a word character. -/
def isWordAt (t : List Char) (i : Nat) : Bool :=
  match t.get? i with
  | some c => isWordChar c
  | none => false

/-- The regex word boundary `\b` at position `i` of `t`: the word-ness of
the character before `i` differs from the word-ness of the character at
`i` (out-of-range counts as non-word). -/
def boundaryAt (t : List Char) (i : Nat) : Bool :=
  (decide (i ≠ 0) && isWordAt t (i - 1)) != isWordAt t i

/-- The pattern `\b` + literal + `\b` matching at position `i` of `t`. -/
def wordOccursAt (lit t : List Char) (i : Nat) : Bool :=
  boundaryAt t i && ((t.drop i).take lit.length == lit) && boundaryAt t (i + lit.length)

/-- Embeds `re.Pattern.match` (which anchors at the start of the target)
for the three compiled pattern shapes. -/
def re_match {μ : Type} (exec : μ → String → Bool) : CompiledPat μ → String → Bool
  | .matchAll, _ => true
  | .literalWord lit, t => wordOccursAt lit.data t.data 0
  | .custom m, t => exec m t

/-- Spec-side definition, following the specification text: a literal
predicate "matches when the literal text occurs anywhere in the target
bounded by word boundaries"; used to compare the specified semantics
against the code. -/
def spec_literal_word_search (lit t : String) : Bool :=
  (List.range (t.data.length + 1)).any (fun i => wordOccursAt lit.data t.data i)

/-! ## Workload-level filtering (`nodes.filter_node_list_for_wl`) -/

/-- A workload record as consumed by the workload-level filter: the six
string attributes the filter reads. -/
structure WlRec where
  name : String
  _id : String
  version_name : String
  version_id : String
  state : String
  type : String
deriving DecidableEq, Repr

/-- A node record as consumed by the workload-level filter: its workload
list plus whatever other data the node carries (preserved untouched). -/
structure WNode (α : Type) where
  rest : α
  workloads : List WlRec
deriving DecidableEq, Repr

/-- Conjunction of the six per-workload pattern checks done inside the
`for wl in node['workloads']` loop (the sequence of `continue` guards). -/
def wl_matches {μ : Type} (exec : μ → String → Bool)
    (np ip vnp vip sp tp : CompiledPat μ) (wl : WlRec) : Bool :=
  re_match exec np wl.name &&
  re_match exec ip wl._id &&
  re_match exec vnp wl.version_name &&
  re_match exec vip wl.version_id &&
  re_match exec sp wl.state &&
  re_match exec tp wl.type

/-- The node loop of `filter_node_list_for_wl`: a node is kept when its
filtered workload list is non-empty, and its `workloads` entry is
replaced by that filtered list. -/
def filter_wl_go {μ α : Type} (exec : μ → String → Bool)
    (np ip vnp vip sp tp : CompiledPat μ) : List (WNode α) → List (WNode α)
  | [] => []
  | node :: rest =>
      let wl_list := node.workloads.filter (wl_matches exec np ip vnp vip sp tp)
      if wl_list.length > 0 then
        { node with workloads := wl_list } :: filter_wl_go exec np ip vnp vip sp tp rest
      else filter_wl_go exec np ip vnp vip sp tp rest

/-- Embeds `nodes.filter_node_list_for_wl`: compiles the six optional
filters with `create_regex` and filters nodes by their workloads. -/
def filter_node_list_for_wl {μ α : Type} (reCompile : String → Option μ)
    (exec : μ → String → Bool)
    (name_filter _id_filter version_name_filter version_id_filter status_filter type_filter : Option String)
    (node_list : List (WNode α)) : List (WNode α) :=
  let name_pattern := create_regex reCompile name_filter
  let _id_pattern := create_regex reCompile _id_filter
  let version_name_pattern := create_regex reCompile version_name_filter
  let version_id_pattern := create_regex reCompile version_id_filter
  let status_pattern := create_regex reCompile status_filter
  let type_pattern := create_regex reCompile type_filter
  filter_wl_go exec name_pattern _id_pattern version_name_pattern version_id_pattern
    status_pattern type_pattern node_list

/-! ## Tree walker (`nodes.create_node_list_and_tree` / `nodes.get_children_of`)

The management-system endpoints the walker consumes are modelled as one
immutable snapshot `Remote`; a request that returns a falsy response is
modelled as `none`.  Python recursion depth is modelled with explicit
fuel, exhaustion standing for `RecursionError`. -/

/-- A resolved label: the management system's per-label dictionary of
display strings. -/
abbrev LabelMap : Type := List (String × String)

/-- The pre-fetched label dictionary (`ms_labels`), keyed by label id. -/
abbrev MsLabels : Type := List (String × LabelMap)

/-- The `device` sub-record embedded in a tree child of type `node`; all
fields are read with Python `[]` indexing, so absent fields raise. -/
structure RawDevice where
  serialNumber : Option String
  connectionStatus : Option String
  currentFWVersion : Option String
  model : Option String
  labels : Option (List String)
deriving DecidableEq, Repr

/-- A raw tree-node record as returned by the tree endpoints. -/
structure RawTreeRec where
  _id : Option String
  name : Option String
  type : Option String
  device : Option RawDevice
deriving DecidableEq, Repr

/-- A fully decoded node of the flat node list. -/
structure NDNode where
  _id : String
  name : String
  serial_number : String
  connection_status : String
  version : String
  model : String
  labels : List (Option LabelMap)
  path : List String
  workloads : Option (List DeployedWl)

/-- An entry of the hierarchical tree built by the walker; `children` is
present exactly for the container types the code recurses into. -/
inductive TreeChild where
  | mk (_id name type : String) (path : List String) (children : Option (List TreeChild))

/-- The root dictionary returned by `create_node_list_and_tree`. -/
structure NerveTree where
  _id : String
  name : String
  type : String
  children : List TreeChild

/-- Snapshot of the remote endpoints consumed by this module. -/
structure Remote where
  rootResp : Option (List RawTreeRec)
  childrenOf : String → Option (List RawTreeRec)
  unassigned : Option (List RawTreeRec)
  deployedWl : String → Option (List JVal)

/-- Missing members of the `["_id", "name", "type"]` key check on a raw
tree record. -/
def rawMissing (c : RawTreeRec) : List String :=
  (if c._id.isNone then ["_id"] else []) ++
  (if c.name.isNone then ["name"] else []) ++
  (if c.type.isNone then ["type"] else [])

/-- Error raised by `complainIfKeysAreNotInDict` on a raw tree record. -/
def rawMissingErr (c : RawTreeRec) : PyErr :=
  .dataNotAsExpected ("Missing expected keys: " ++ String.intercalate ", " (rawMissing c))

/-- Association-list lookup in the label dictionary (`ms_labels.get(id)`). -/
def msGet (ms : MsLabels) (id : String) : Option LabelMap :=
  (ms.find? (fun kv => kv.1 == id)).map (·.2)

/-- The `for id in ids` loop of `create_device_label_list`; the original
full id list is carried alongside because the code tests `if id in ids`
against it. -/
def label_loop (ids : List String) (ms : MsLabels) : List String → Except PyErr (List (Option LabelMap))
  | [] => .ok []
  | id :: rest =>
      if ids.contains id then
        (label_loop ids ms rest).map (fun l => msGet ms id :: l)
      else
        .error (.dataNotAsExpected ("Label with id " ++ id ++ " not found in the label list."))

/-- Embeds `nodes.create_device_label_list`. -/
def create_device_label_list (ids : List String) (ms_labels : MsLabels) : Except PyErr (List (Option LabelMap)) :=
  label_loop ids ms_labels ids

/-- Decodes the `device` sub-record of a tree child of type `node` into
an `NDNode` (the `if child['type'] == "node"` block of
`get_children_of`); the stored `path` drops the trailing own name. -/
def nodeOfChild (ms_labels : Option MsLabels) (i nm : String) (current_path : List String)
    (child : RawTreeRec) : Except PyErr NDNode :=
  match child.device with
  | none => .error .keyError
  | some d =>
      match d.serialNumber, d.connectionStatus, d.currentFWVersion, d.model, d.labels with
      | some sn, some cs, some fw, some mo, some lids =>
          (match ms_labels with
           | some msl => create_device_label_list lids msl
           | none => .ok []).map (fun dls =>
            { _id := i, name := nm, serial_number := sn, connection_status := cs,
              version := fw, model := mo, labels := dls,
              path := current_path.dropLast, workloads := none })
      | _, _, _, _, _ => .error .keyError

/-- The body of the `for child in data` loop of `get_children_of`:
validates the child's keys, extends the path with the child's name,
recurses into `folder` and `unassigned` children (the recursive call of
the source, threaded in as `rec`), decodes `node` children, and returns
the child's tree entry together with its flat node contribution (subtree
nodes first, then the child itself when it is a `node`, matching the
order the source extends and appends `node_list`). -/
def child_step (rec : String → String → List String → Except PyErr (List TreeChild × List NDNode))
    (ms_labels : Option MsLabels) (path : List String)
    (child : RawTreeRec) : Except PyErr (TreeChild × List NDNode) :=
  match child._id, child.name, child.type with
  | some i, some nm, some ty =>
      let current_path := path ++ [nm]
      match (if ty == "folder" || ty == "unassigned" then
               (rec i ty current_path).map (fun r => (some r.1, r.2))
             else .ok (none, [])) with
      | .error e => .error e
      | .ok (childCh, nested) =>
          match (if ty == "node" then
                   (nodeOfChild ms_labels i nm current_path child).map (fun n => some n)
                 else .ok none) with
          | .error e => .error e
          | .ok own =>
              .ok (TreeChild.mk i nm ty current_path childCh,
                   nested ++ own.elim [] (fun n => [n]))
  | _, _, _ => .error (rawMissingErr child)

/-- The `for child in data` loop of `get_children_of`: processes each
child in order with `child_step` and accumulates its tree entry and flat
node contribution. -/
def walk_children (rec : String → String → List String → Except PyErr (List TreeChild × List NDNode))
    (ms_labels : Option MsLabels) (path : List String) :
    List RawTreeRec → Except PyErr (List TreeChild × List NDNode)
  | [] => .ok ([], [])
  | child :: rest =>
      match child_step rec ms_labels path child with
      | .error e => .error e
      | .ok (tc, nodes) =>
          match walk_children rec ms_labels path rest with
          | .error e => .error e
          | .ok (restCh, restNl) => .ok (tc :: restCh, nodes ++ restNl)

/-- Embeds `nodes.get_children_of`: fetches the children of a tree node
(one endpoint for `folder`/`root`, a dedicated one for `unassigned`) and
walks them; the fuel decreases by one per tree level, exhaustion standing
for the `RecursionError` of unbounded Python recursion. -/
def get_children_of (R : Remote) (ms_labels : Option MsLabels) :
    Nat → String → String → List String → Except PyErr (List TreeChild × List NDNode)
  | 0, _, _, _ => .error .recursionError
  | f + 1, _id, ty, path =>
      if ty == "folder" || ty == "root" then
        match R.childrenOf _id with
        | none => .error (.requestFailed "Server did not return a valid response")
        | some data => walk_children (get_children_of R ms_labels f) ms_labels path data
      else if ty == "unassigned" then
        match R.unassigned with
        | none => .error (.requestFailed "Server did not return a valid response")
        | some data => walk_children (get_children_of R ms_labels f) ms_labels path data
      else
        .error (.valueError "Type must be folder, root, or unassigned")

/-- Embeds `nodes.create_node_list_and_tree`: fetches the root record
(`response.json()[0]`, an `IndexError` on an empty response), validates
its keys, walks its children and assembles the root tree. -/
def create_node_list_and_tree (R : Remote) (fuel : Nat) (ms_labels : Option MsLabels) :
    Except PyErr (NerveTree × List NDNode) :=
  match R.rootResp with
  | none => .error (.actionUnsuccessful "request failed")
  | some [] => .error .indexError
  | some (d :: _) =>
      match d._id, d.name, d.type with
      | some i, some nm, some ty =>
          (get_children_of R ms_labels fuel i ty ["root"]).map
            (fun r => ({ _id := i, name := nm, type := ty, children := r.1 }, r.2))
      | _, _, _ => .error (rawMissingErr d)

/-! ## List reconciler (`nodes.create_node_list_from_node_list`) -/

/-- A user-supplied partial workload record: the three identifying fields
the workload reconciler probes with `.get`. -/
structure PWl where
  device_id : Option JVal
  name : Option JVal
  version_name : Option JVal

/-- A user-supplied partial node record. -/
structure PNode where
  serial_number : Option String
  name : Option String
  workloads : Option (List PWl)

/-- Python truthiness of an optional string field read with `.get`. -/
def strTruthy : Option String → Bool
  | some s => !(s == "")
  | none => false

/-- Python truthiness of an optional dynamic field read with `.get`. -/
def optTruthy : Option JVal → Bool
  | some v => jvalTruthy v
  | none => false

/-- Python truthiness of an optional workload list read with `.get`. -/
def wlTruthy : Option (List PWl) → Bool
  | some l => !l.isEmpty
  | none => false

/-- Embeds `nodes.get_deployed_workloads_from_node`: fetches the raw
device records for a node and decodes each in turn. -/
def get_deployed_workloads_from_node (R : Remote) (jls : String → Except PyErr JVal)
    (serialNumber : String) : Except PyErr (List DeployedWl) :=
  match R.deployedWl serialNumber with
  | none => .error (.actionUnsuccessful "request failed")
  | some data => data.mapM (decodeDeviceRecord jls)

/-- The `for wl in partial_list` loop of `create_wl_list_from_wl_list`:
resolution precedence `device_id`, then `name`, then `version_name`;
an unidentifiable or unmatched entry is skipped. -/
def reconcile_wls (complete : List DeployedWl) : List PWl → List DeployedWl
  | [] => []
  | wl :: rest =>
      let found : Option DeployedWl :=
        if optTruthy wl.device_id then
          findDictByValue complete (fun w => some w.device_id) (wl.device_id.getD .null)
        else if optTruthy wl.name then
          findDictByValue complete (fun w => some w.name) (wl.name.getD .null)
        else if optTruthy wl.version_name then
          findDictByValue complete (fun w => some w.version_name) (wl.version_name.getD .null)
        else none
      match found with
      | some f => f :: reconcile_wls complete rest
      | none => reconcile_wls complete rest

/-- Embeds `nodes.create_wl_list_from_wl_list`: offline nodes yield an
empty list; online nodes fetch their deployed workloads and reconcile the
partial entries against them. -/
def create_wl_list_from_wl_list (R : Remote) (jls : String → Except PyErr JVal)
    (part_list : List PWl) (node : NDNode) : Except PyErr (List DeployedWl) :=
  if node.connection_status == "online" then
    (get_deployed_workloads_from_node R jls node.serial_number).bind (fun complete =>
      if complete.isEmpty then .ok []
      else .ok (reconcile_wls complete part_list))
  else .ok []

/-- The resolution step of the reconciler loop (the `if`/`elif`/`else`
chain over `.get` probes): the first authoritative node matched by a
truthy `serial_number` (exact match), else by a truthy `name` (exact
match), else nothing — a record carrying neither identifier, or whose
lookup misses, resolves to nothing and is skipped by the loop. -/
def resolveNode (nl : List NDNode) (p : PNode) : Option NDNode :=
  if strTruthy p.serial_number then
    findDictByValue nl (fun n => some n.serial_number) (p.serial_number.getD "")
  else if strTruthy p.name then
    findDictByValue nl (fun n => some n.name) (p.name.getD "")
  else none

/-- The `for node in partial_list` loop of
`create_node_list_from_node_list`: each record is resolved with
`resolveNode`; unresolved records are skipped silently.  A found node
gets its `workloads` entry set (reconciled workloads when requested and
supplied, otherwise `[]`). -/
def reconcile_nodes (R : Remote) (jls : String → Except PyErr JVal) (nl : List NDNode)
    (with_workloads : Bool) : List PNode → Except PyErr (List NDNode)
  | [] => .ok []
  | p :: ps =>
      match resolveNode nl p with
      | none => reconcile_nodes R jls nl with_workloads ps
      | some fn =>
          (if with_workloads && wlTruthy p.workloads then
             create_wl_list_from_wl_list R jls (p.workloads.getD []) fn
           else .ok []).bind (fun wls =>
          (reconcile_nodes R jls nl with_workloads ps).map (fun rest =>
            { fn with workloads := some wls } :: rest))

/-- Embeds `nodes.create_node_list_from_node_list`: runs a fresh tree
walk (with no label dictionary) and reconciles the partial list against
the resulting authoritative node list.  The input is a list by type, so
the `complainIfNotAList` guard of the source is vacuous here. -/
def create_node_list_from_node_list (R : Remote) (jls : String → Except PyErr JVal)
    (fuel : Nat) (part_list : List PNode) (with_workloads : Bool) : Except PyErr (List NDNode) :=
  (create_node_list_and_tree R fuel none).bind (fun tn =>
    reconcile_nodes R jls tn.2 with_workloads part_list)

/-- Embeds `nodes.create_node_list`: the tree walk with only the flat
node list kept. -/
def create_node_list (R : Remote) (fuel : Nat) (ms_labels : Option MsLabels) :
    Except PyErr (List NDNode) :=
  (create_node_list_and_tree R fuel ms_labels).map (fun tn => tn.2)

/-! ## Derived definitions used to state the claims -/

mutual

/-- The `type = node` leaves of a tree entry, each with its stored tree
path (name plus the full path recorded in the tree). -/
def leavesOfChild : TreeChild → List (String × List String)
  | .mk _ nm ty p none => if ty == "node" then [(nm, p)] else []
  | .mk _ nm ty p (some cs) => if ty == "node" then [(nm, p)] else leavesOfList cs

/-- The `type = node` leaves of a list of tree entries, in order. -/
def leavesOfList : List TreeChild → List (String × List String)
  | [] => []
  | c :: cs => leavesOfChild c ++ leavesOfList cs

end

/-- Name and reconstructed full tree path (stored path plus own name) of
a flat-list node. -/
def nodeLeafKey (n : NDNode) : String × List String :=
  (n.name, n.path ++ [n.name])

/-- Whether a result is the `DataNotAsExpected` error (the spec's
DataFormatError). -/
def isDataNotAsExpected {α : Type} : Except PyErr α → Bool
  | .error (.dataNotAsExpected _) => true
  | _ => false

/-- Whether a result is a success. -/
def expOk {α : Type} : Except PyErr α → Bool
  | .ok _ => true
  | .error _ => false

/-- Whether a dynamic value is a list. -/
def jIsList : JVal → Bool
  | .list _ => true
  | _ => false

/-- The reconciler loop specialized to `with_workloads = false`, where it
performs no request and can raise nothing. -/
def reconcile_nodes_pure (nl : List NDNode) : List PNode → List NDNode
  | [] => []
  | p :: ps =>
      match resolveNode nl p with
      | none => reconcile_nodes_pure nl ps
      | some fn => { fn with workloads := some [] } :: reconcile_nodes_pure nl ps

/-- Walker invariant: a successful `get_children_of` run returns a flat
list whose nodes are exactly the `type = node` leaves of the returned
tree, in order, each node's stored path being its tree path with its own
trailing name removed. -/
def WalkerP (R : Remote) (f : Nat) : Prop :=
  ∀ ms i ty path ch nl, get_children_of R ms f i ty path = .ok (ch, nl) →
    nl.map nodeLeafKey = leavesOfList ch

/-! ## Concrete fixtures -/

/-- A `json.loads` stand-in that rejects every document. -/
def jls0 : String → Except PyErr JVal := fun _ => .error .jsonError

/-- A device record with the given serial number, online, firmware 1.0,
model m1, no labels. -/
def devA (sn : String) : RawDevice :=
  ⟨some sn, some "online", some "1.0", some "m1", some []⟩

/-- A raw leaf (`type = node`) tree record. -/
def nodeRaw (i nm sn : String) : RawTreeRec :=
  ⟨some i, some nm, some "node", some (devA sn)⟩

/-- A raw folder tree record. -/
def folderRaw (i nm : String) : RawTreeRec :=
  ⟨some i, some nm, some "folder", none⟩

/-- The root record shared by the concrete remotes. -/
def rootRaw : RawTreeRec :=
  ⟨some "r", some "Root", some "root", none⟩

/-- A remote snapshot with the given children under the root and the
given responses for deeper folders. -/
def remoteOf (rootChildren : List RawTreeRec) (sub : String → Option (List RawTreeRec)) : Remote :=
  { rootResp := some [rootRaw],
    childrenOf := fun i => if i == "r" then some rootChildren else sub i,
    unassigned := some [],
    deployedWl := fun _ => none }

/-- The flat-list node produced by walking `nodeRaw i nm sn` directly
under the given folder path. -/
def ndn (i nm sn : String) (path : List String) : NDNode :=
  { _id := i, name := nm, serial_number := sn, connection_status := "online",
    version := "1.0", model := "m1", labels := [], path := path, workloads := none }

/-- Well-behaved remote: one empty folder `F` and one node `N1` with the
non-empty, unique serial number `SN1`. -/
def RW : Remote :=
  remoteOf [folderRaw "f" "F", nodeRaw "n1" "N1" "SN1"]
    (fun i => if i == "f" then some [] else none)

/-- The tree returned by walking `RW`. -/
def RW_tree : NerveTree :=
  { _id := "r", name := "Root", type := "root",
    children := [TreeChild.mk "f" "F" "folder" ["root", "F"] (some []),
                 TreeChild.mk "n1" "N1" "node" ["root", "N1"] none] }

/-- The flat node list returned by walking `RW`. -/
def RW_nl : List NDNode :=
  [ndn "n1" "N1" "SN1" ["root"]]

/-- Remote whose only node carries the empty-string serial number. -/
def CRa : Remote :=
  remoteOf [nodeRaw "n1" "N1" ""] (fun _ => none)

/-- The tree returned by walking `CRa`. -/
def CRa_tree : NerveTree :=
  { _id := "r", name := "Root", type := "root",
    children := [TreeChild.mk "n1" "N1" "node" ["root", "N1"] none] }

/-- Remote with two distinct nodes sharing the serial number `S`. -/
def CRb : Remote :=
  remoteOf [nodeRaw "n1" "N1" "S", nodeRaw "n2" "N2" "S"] (fun _ => none)

/-- The tree returned by walking `CRb`. -/
def CRb_tree : NerveTree :=
  { _id := "r", name := "Root", type := "root",
    children := [TreeChild.mk "n1" "N1" "node" ["root", "N1"] none,
                 TreeChild.mk "n2" "N2" "node" ["root", "N2"] none] }

/-- Remote with a folder named `A` that contains a node also named `A`. -/
def RC7 : Remote :=
  remoteOf [folderRaw "f" "A"]
    (fun i => if i == "f" then some [nodeRaw "n1" "A" "SA"] else none)

/-- The tree returned by walking `RC7`. -/
def RC7_tree : NerveTree :=
  { _id := "r", name := "Root", type := "root",
    children := [TreeChild.mk "f" "A" "folder" ["root", "A"]
      (some [TreeChild.mk "n1" "A" "node" ["root", "A", "A"] none])] }

/-- The flat node list returned by walking `RC7`. -/
def RC7_nl : List NDNode :=
  [ndn "n1" "A" "SA" ["root", "A"]]

/-- Remote whose root endpoint returns an empty list (zero roots). -/
def Rzero : Remote :=
  { rootResp := some [], childrenOf := fun _ => none, unassigned := none,
    deployedWl := fun _ => none }

/-- Remote whose root record is missing the `_id` field. -/
def Rmiss : Remote :=
  { rootResp := some [⟨none, some "Root", some "root", none⟩],
    childrenOf := fun _ => none, unassigned := none, deployedWl := fun _ => none }

/-- Fixture: the parsed embedded JSON document of the decoder fixtures. -/
def vkvW : List (String × JVal) :=
  [("workloadId", .str "wid"), ("versionId", .str "vid"),
   ("workloadVersionName", .str "wvn")]

/-- A `json.loads` stand-in defined on the single document `W` used by
the decoder fixtures. -/
def jlsW : String → Except PyErr JVal := fun s =>
  if s == "W" then .ok (.dict vkvW) else .error .jsonError

/-- Fixture: the first (index 0) property of the first service. -/
def p0W : List (String × JVal) :=
  [("value", .str "W")]

/-- Fixture: a well-formed `State` property with options `IDLE`/`STARTED`
and selected index 1. -/
def p2W : List (String × JVal) :=
  [("name", .str "State"),
   ("options", .list [.str "IDLE", .str "STARTED"]),
   ("value", .int 1)]

/-- Fixture: like `p2W` but named `Status` instead of `State`. -/
def p2M : List (String × JVal) :=
  [("name", .str "Status"),
   ("options", .list [.str "IDLE", .str "STARTED"]),
   ("value", .int 1)]

/-- Fixture: first service of a raw device record, with the embedded
JSON document `W`. -/
def s0W : List (String × JVal) :=
  [("property_list", .list [.dict p0W])]

/-- Fixture: second service, whose third property is `p2W`. -/
def s1W : List (String × JVal) :=
  [("property_list", .list [.dict [], .dict [], .dict p2W])]

/-- Fixture: second service, whose third property is `p2M`. -/
def s1M : List (String × JVal) :=
  [("property_list", .list [.dict [], .dict [], .dict p2M])]

/-- Fixture: a fully well-formed raw device record. -/
def wkvW : List (String × JVal) :=
  [("device_name", .str "dev"), ("device_model_name", .str "docker"),
   ("service_list", .list [.dict s0W, .dict s1W]), ("id", .str "dev-id")]

/-- Fixture: a raw device record whose `service_list` has length 1. -/
def wkvL : List (String × JVal) :=
  [("device_name", .str "dev"), ("device_model_name", .str "docker"),
   ("service_list", .list [.dict s0W])]

/-- Fixture: like `wkvW` but the third property of the second service is
named `Status` instead of `State`. -/
def wkvM : List (String × JVal) :=
  [("device_name", .str "dev"), ("device_model_name", .str "docker"),
   ("service_list", .list [.dict s0W, .dict s1M])]

/-- Fixture: a workload of type docker in state STARTED. -/
def dockerWl : WlRec :=
  ⟨"wl1", "id1", "v1", "vid1", "STARTED", "docker"⟩

/-- Fixture: a workload of type vm in state STOPPED. -/
def vmWl : WlRec :=
  ⟨"wl2", "id2", "v2", "vid2", "STOPPED", "vm"⟩

/-- Fixture: a node holding the docker and vm workloads. -/
def exNode : WNode Unit :=
  ⟨(), [dockerWl, vmWl]⟩

/-! ## Lemmas and claim theorems -/

theorem label_loop_ok (ids : List String) (ms : MsLabels) :
    ∀ l, (∀ x ∈ l, ids.contains x = true) →
      label_loop ids ms l = .ok (l.map (fun id => msGet ms id)) := by
  intro l
  induction l with
  | nil => intro _; rfl
  | cons x rest ih =>
      intro h
      have hx : ids.contains x = true := h x (by simp)
      have hx' : x ∈ ids := by simpa using hx
      have hr := ih (fun y hy => h y (by simp [hy]))
      simp [label_loop, hx, hx', hr, Except.map]

theorem cdll_ok (ids : List String) (ms : MsLabels) :
    create_device_label_list ids ms = .ok (ids.map (fun id => msGet ms id)) :=
  label_loop_ok ids ms ids (fun x hx => by simpa using hx)

/-- C10: `create_device_label_list` never raises `DataNotAsExpected` (the
membership test probes the input id list, so the error branch is
unreachable) and a label id absent from the dictionary contributes a
`none` entry to the returned labels. -/
theorem spec_C10_label_list_total :
    (∀ (ids : List String) (ms : MsLabels),
       create_device_label_list ids ms = .ok (ids.map (fun id => msGet ms id))) ∧
    create_device_label_list ["x"] [] = .ok [none] :=
  ⟨cdll_ok, rfl⟩

/-- C9: whenever the raw regex of a `regex:`-prefixed predicate fails to
compile, `create_regex` degrades the predicate to `.*`, which matches
every input string, and no error escapes. -/
theorem spec_C9_invalid_regex_degrades :
    ∀ (μ : Type) (exec : μ → String → Bool) (rc : String → Option μ) (p t : String),
      strStartsWith p "regex:" = true → rc (strDropN p 6) = none →
      create_regex rc (some p) = .matchAll ∧
      re_match exec (create_regex rc (some p)) t = true := by
  intro μ exec rc p t h1 h2
  have hc : create_regex rc (some p) = .matchAll := by
    simp [create_regex, h1]
    rw [h2]
  exact ⟨hc, by rw [hc]; rfl⟩

/-- Witness for C9 at the predicate `regex:[unclosed` of the spec. -/
theorem spec_C9_invalid_regex_degrades_witness :
    create_regex (fun _ => (none : Option Unit)) (some "regex:[unclosed") = .matchAll ∧
    re_match (fun (_ : Unit) _ => false)
      (create_regex (fun _ => none) (some "regex:[unclosed")) "anything" = true :=
  spec_C9_invalid_regex_degrades Unit (fun _ _ => false) (fun _ => none)
    "regex:[unclosed" "anything" (by decide) rfl

/-- C3 counterexample: the spec-side reading (literal occurs anywhere in
the target bounded by word boundaries) accepts the pair
`("abc", "xx abc yy")`, but the code's matcher, which anchors at the
start of the target, rejects it. -/
theorem spec_C3_counterexample :
    spec_literal_word_search "abc" "xx abc yy" = true ∧
    re_match (fun (_ : Unit) _ => false)
      (create_regex (fun _ => none) (some "abc")) "xx abc yy" = false := by
  exact ⟨by decide, by decide⟩

/-- C3 amended: a literal (non-`regex:`) predicate matches exactly when
the target starts with the literal and both ends of that prefix sit on
word boundaries; in particular `abc` matches `abc yy` but neither
`xx abc yy` nor `xxabcyy`. -/
theorem spec_C3_literal_anchored_amended :
    (∀ (μ : Type) (exec : μ → String → Bool) (rc : String → Option μ) (lit t : String),
        strStartsWith lit "regex:" = false →
        (re_match exec (create_regex rc (some lit)) t = true ↔
          (boundaryAt t.data 0 = true ∧ t.data.take lit.data.length = lit.data ∧
           boundaryAt t.data lit.data.length = true))) ∧
    re_match (fun (_ : Unit) _ => false)
      (create_regex (fun _ => none) (some "abc")) "abc yy" = true ∧
    re_match (fun (_ : Unit) _ => false)
      (create_regex (fun _ => none) (some "abc")) "xx abc yy" = false ∧
    re_match (fun (_ : Unit) _ => false)
      (create_regex (fun _ => none) (some "abc")) "xxabcyy" = false := by
  refine ⟨?_, by decide, by decide, by decide⟩
  intro μ exec rc lit t h
  simp [create_regex, h, re_match, wordOccursAt, Bool.and_eq_true, and_assoc]

/-- Witness for the amended C3 at a concrete matching pair. -/
theorem spec_C3_literal_anchored_amended_witness :
    re_match (fun (_ : Unit) _ => false)
      (create_regex (fun _ => none) (some "ab")) "ab cd" = true :=
  (spec_C3_literal_anchored_amended.1 Unit (fun _ _ => false) (fun _ => none)
    "ab" "ab cd" (by decide)).mpr (by decide)

theorem filter_wl_go_filterMap {μ α : Type} (exec : μ → String → Bool)
    (np ip vnp vip sp tp : CompiledPat μ) :
    ∀ nl : List (WNode α), filter_wl_go exec np ip vnp vip sp tp nl =
      nl.filterMap (fun n =>
        let kept := n.workloads.filter (wl_matches exec np ip vnp vip sp tp)
        if kept.length > 0 then some { n with workloads := kept } else none) := by
  intro nl
  induction nl with
  | nil => rfl
  | cons n rest ih =>
      by_cases h : (n.workloads.filter (wl_matches exec np ip vnp vip sp tp)).length > 0
      · simp [filter_wl_go, List.filterMap_cons, h, ih]
      · simp [filter_wl_go, List.filterMap_cons, h, ih]

/-- C6: a node survives `filter_node_list_for_wl` exactly when at least
one of its workloads passes all six predicate checks, and a surviving
node's `workloads` entry is replaced by exactly the matching subset;
concretely, a node with a STARTED docker workload and a STOPPED vm
workload filtered by status `STARTED` keeps only the docker entry. -/
theorem spec_C6_workload_filtering :
    (∀ (μ α : Type) (rc : String → Option μ) (exec : μ → String → Bool)
        (nf idf vnf vif sf tf : Option String) (nl : List (WNode α)),
        filter_node_list_for_wl rc exec nf idf vnf vif sf tf nl =
          nl.filterMap (fun n =>
            let kept := n.workloads.filter
              (wl_matches exec (create_regex rc nf) (create_regex rc idf)
                (create_regex rc vnf) (create_regex rc vif)
                (create_regex rc sf) (create_regex rc tf))
            if kept.length > 0 then some { n with workloads := kept } else none)) ∧
    filter_node_list_for_wl (fun _ => (none : Option Unit)) (fun _ _ => false)
        none none none none (some "STARTED") none [exNode] =
      [{ exNode with workloads := [dockerWl] }] := by
  constructor
  · intro μ α rc exec nf idf vnf vif sf tf nl
    simpa [filter_node_list_for_wl] using
      filter_wl_go_filterMap exec (create_regex rc nf) (create_regex rc idf)
        (create_regex rc vnf) (create_regex rc vif) (create_regex rc sf)
        (create_regex rc tf) nl
  · decide

/-- C8 counterexample: an empty root response makes the traversal fail
with the Python builtin `IndexError` (from `response.json()[0]`), not
with the claimed data-shape error. -/
theorem spec_C8_counterexample :
    create_node_list_and_tree Rzero 5 none = .error .indexError ∧
    isDataNotAsExpected (create_node_list_and_tree Rzero 5 none) = false := by
  exact ⟨rfl, rfl⟩

/-- C8 amended: a zero-root response fails with an unhandled
`IndexError`, while a root record missing any of `_id`, `name`, `type`
fails with `DataNotAsExpected` (the spec's DataFormatError). -/
theorem spec_C8_root_errors_amended :
    (∀ (R : Remote) (f : Nat) (ms : Option MsLabels), R.rootResp = some [] →
       create_node_list_and_tree R f ms = .error .indexError) ∧
    (∀ (R : Remote) (f : Nat) (ms : Option MsLabels) (d : RawTreeRec) (ds : List RawTreeRec),
       R.rootResp = some (d :: ds) → rawMissing d ≠ [] →
       create_node_list_and_tree R f ms = .error (rawMissingErr d) ∧
       isDataNotAsExpected (create_node_list_and_tree R f ms) = true) := by
  constructor
  · intro R f ms h
    simp [create_node_list_and_tree, h]
  · intro R f ms d ds h hmiss
    have hd : create_node_list_and_tree R f ms = .error (rawMissingErr d) := by
      obtain ⟨i, nm, ty, dev⟩ := d
      cases i <;> cases nm <;> cases ty <;>
        simp_all [create_node_list_and_tree, rawMissing]
    exact ⟨hd, by simp [hd, isDataNotAsExpected, rawMissingErr]⟩

/-- Witness for the amended C8 at the two concrete remotes. -/
theorem spec_C8_root_errors_amended_witness :
    create_node_list_and_tree Rzero 5 none = .error .indexError ∧
    isDataNotAsExpected (create_node_list_and_tree Rmiss 5 none) = true :=
  ⟨spec_C8_root_errors_amended.1 Rzero 5 none rfl,
   (spec_C8_root_errors_amended.2 Rmiss 5 none ⟨none, some "Root", some "root", none⟩ []
     rfl (by decide)).2⟩

/-! ### Device record decoder lemmas -/

theorem dGet_any {kvs : List (String × JVal)} {k : String} {v : JVal}
    (h : dGet kvs k = some v) : kvs.any (fun kv => kv.1 == k) = true := by
  induction kvs with
  | nil => simp [dGet] at h
  | cons kv rest ih =>
      by_cases hk : (kv.1 == k) = true
      · simp [hk]
      · have h' : dGet rest k = some v := by
          simpa [dGet, List.find?_cons, hk] using h
        simp [hk, ih h']

theorem pyIn_dict_some {kvs : List (String × JVal)} {k : String} {v : JVal}
    (h : dGet kvs k = some v) : pyIn (.dict kvs) k = .ok true := by
  simp [pyIn, dGet_any h]

theorem complain_ok1 {kvs : List (String × JVal)} {k1 : String} {v1 : JVal}
    (h1 : dGet kvs k1 = some v1) :
    complainIfKeysAreNotInDict (.dict kvs) [k1] = .ok () := by
  simp [complainIfKeysAreNotInDict, missingKeys, pyIn_dict_some h1, bind, Except.bind]

theorem complain_ok3 {kvs : List (String × JVal)} {k1 k2 k3 : String} {v1 v2 v3 : JVal}
    (h1 : dGet kvs k1 = some v1) (h2 : dGet kvs k2 = some v2) (h3 : dGet kvs k3 = some v3) :
    complainIfKeysAreNotInDict (.dict kvs) [k1, k2, k3] = .ok () := by
  simp [complainIfKeysAreNotInDict, missingKeys, pyIn_dict_some h1, pyIn_dict_some h2,
    pyIn_dict_some h3, bind, Except.bind]

theorem complainIfNotAList_not_list {ov : JVal} (h : jIsList ov = false) :
    complainIfNotAList ov = .error (.dataNotAsExpected ("Expected a list, got " ++ pyTypeName ov)) := by
  cases ov <;> simp_all [jIsList, complainIfNotAList]

theorem ebind_ok {α β : Type} (a : α) (f : α → Except PyErr β) :
    ((Except.ok a : Except PyErr α) >>= f) = f a := rfl

theorem ebind_err {α β : Type} (e : PyErr) (f : α → Except PyErr β) :
    ((Except.error e : Except PyErr α) >>= f) = .error e := rfl

theorem epure_bind {α β : Type} (a : α) (f : α → Except PyErr β) :
    ((pure a : Except PyErr α) >>= f) = f a := rfl

theorem ethrow_bind {α β : Type} (e : PyErr) (f : α → Except PyErr β) :
    ((throw e : Except PyErr α) >>= f) = .error e := rfl

theorem pyGet_dict_some {kvs : List (String × JVal)} {k : String} {v : JVal}
    (h : dGet kvs k = some v) : pyGet (.dict kvs) k = .ok v := by
  simp [pyGet, h]

theorem pyGet_dict (kvs : List (String × JVal)) (k : String) :
    pyGet (.dict kvs) k = .ok ((dGet kvs k).getD .null) := rfl

theorem pyLen_list (xs : List JVal) : pyLen (.list xs) = .ok xs.length := rfl

theorem pySub_cons_zero (x : JVal) (xs : List JVal) :
    pySubscript (.list (x :: xs)) (.int 0) = .ok x := rfl

theorem pySub_pair_one (x y : JVal) :
    pySubscript (.list [x, y]) (.int 1) = .ok y := rfl

theorem pySub_idx_two {xs : List JVal} {x : JVal} (h : xs[2]? = some x) :
    pySubscript (.list xs) (.int 2) = .ok x := by
  simp [pySubscript, pyListIdx, h]

/-- Reduction of the decoder on a record that is well-formed up to the
`State` property: the result depends only on the name check, the options
list check and the state lookup. -/
theorem decode_reduces (jls : String → Except PyErr JVal)
    (wkv skv0 skv1 pkv0 vkv pkv2 : List (String × JVal))
    (dn dm wid vid wvn nmv ov vv : JVal) (vs : String) (pl0rest pl1 : List JVal)
    (h1 : dGet wkv "device_name" = some dn)
    (h2 : dGet wkv "device_model_name" = some dm)
    (h3 : dGet wkv "service_list" = some (.list [.dict skv0, .dict skv1]))
    (h4 : dGet skv0 "property_list" = some (.list (.dict pkv0 :: pl0rest)))
    (h5 : dGet pkv0 "value" = some (.str vs))
    (h6 : jls vs = .ok (.dict vkv))
    (h7 : dGet vkv "workloadId" = some wid)
    (h8 : dGet vkv "versionId" = some vid)
    (h9 : dGet vkv "workloadVersionName" = some wvn)
    (h10 : dGet skv1 "property_list" = some (.list pl1))
    (h11 : pl1[2]? = some (.dict pkv2))
    (h12 : dGet pkv2 "name" = some nmv)
    (h13 : dGet pkv2 "options" = some ov)
    (h14 : dGet pkv2 "value" = some vv) :
    decodeDeviceRecord jls (.dict wkv) =
      if !(isStrEq nmv "State") then
        .error (.actionUnsuccessful "Expected name:State in response to getting deployed workloads.")
      else
        (complainIfNotAList ov).bind (fun _ =>
          (pySubscript ov vv).map (fun st =>
            { name := dn, type := dm, _id := wid, version_id := vid, version_name := wvn,
              state := st, device_id := (dGet wkv "id").getD .null })) := by
  simp only [decodeDeviceRecord, complain_ok3 h1 h2 h3, complain_ok1 h5,
    complain_ok3 h7 h8 h9, complain_ok3 h12 h13 h14,
    pyGet_dict_some h1, pyGet_dict_some h2, pyGet_dict_some h3, pyGet_dict_some h4,
    pyGet_dict_some h5, h6, pyGet_dict_some h7, pyGet_dict_some h8, pyGet_dict_some h9,
    pyGet_dict_some h10, pyGet_dict_some h12, pyGet_dict_some h13, pyGet_dict_some h14,
    pyLen_list, pySub_cons_zero, pySub_pair_one, pySub_idx_two h11,
    ebind_ok, ebind_err, epure_bind, ethrow_bind, List.length_cons, List.length_nil]
  norm_num
  cases hnm : isStrEq nmv "State"
  · simp [hnm]
  · rw [if_neg (by simp), if_neg (by simp)]
    cases hco : complainIfNotAList ov
    · simp [ebind_err, Except.bind]
    · cases hsub : pySubscript ov vv
      · simp [ebind_ok, ebind_err, Except.bind, Except.map]
      · simp [ebind_ok, Except.bind, Except.map, pyGet_dict]

/-- Reduction of the decoder when the `service_list` is a list whose
length is not 2: the strict `ActionUnsuccessful` failure. -/
theorem decode_len (jls : String → Except PyErr JVal) (wkv : List (String × JVal))
    (d1 d2 : JVal) (sl : List JVal)
    (h1 : dGet wkv "device_name" = some d1)
    (h2 : dGet wkv "device_model_name" = some d2)
    (h3 : dGet wkv "service_list" = some (.list sl))
    (hlen : sl.length ≠ 2) :
    decodeDeviceRecord jls (.dict wkv) =
      .error (.actionUnsuccessful "Expected 2 services in response to getting deployed workloads.") := by
  simp only [decodeDeviceRecord, complain_ok3 h1 h2 h3, pyGet, h3, Option.getD_some,
    pyLen, bind, Except.bind, pure]
  simp [hlen, throw, throwThe, MonadExceptOf.throw]

/-- C4: a raw record that is well-formed through the `State` property
decodes to a workload whose `state` is the entry of the property's
`options` list selected by the integer in its `value` field (Python list
indexing); a name other than `State` or a non-list `options` makes the
decoder fail instead of defaulting. -/
theorem spec_C4_state_decoding :
    (∀ (jls : String → Except PyErr JVal)
       (wkv skv0 skv1 pkv0 vkv pkv2 : List (String × JVal))
       (dn dm wid vid wvn vv st : JVal) (vs : String) (opts pl0rest pl1 : List JVal),
       dGet wkv "device_name" = some dn →
       dGet wkv "device_model_name" = some dm →
       dGet wkv "service_list" = some (.list [.dict skv0, .dict skv1]) →
       dGet skv0 "property_list" = some (.list (.dict pkv0 :: pl0rest)) →
       dGet pkv0 "value" = some (.str vs) →
       jls vs = .ok (.dict vkv) →
       dGet vkv "workloadId" = some wid →
       dGet vkv "versionId" = some vid →
       dGet vkv "workloadVersionName" = some wvn →
       dGet skv1 "property_list" = some (.list pl1) →
       pl1[2]? = some (.dict pkv2) →
       dGet pkv2 "name" = some (.str "State") →
       dGet pkv2 "options" = some (.list opts) →
       dGet pkv2 "value" = some vv →
       pySubscript (.list opts) vv = .ok st →
       decodeDeviceRecord jls (.dict wkv) =
         .ok { name := dn, type := dm, _id := wid, version_id := vid, version_name := wvn,
               state := st, device_id := (dGet wkv "id").getD .null }) ∧
    (∀ (jls : String → Except PyErr JVal)
       (wkv skv0 skv1 pkv0 vkv pkv2 : List (String × JVal))
       (dn dm wid vid wvn nmv ov vv : JVal) (vs : String) (pl0rest pl1 : List JVal),
       dGet wkv "device_name" = some dn →
       dGet wkv "device_model_name" = some dm →
       dGet wkv "service_list" = some (.list [.dict skv0, .dict skv1]) →
       dGet skv0 "property_list" = some (.list (.dict pkv0 :: pl0rest)) →
       dGet pkv0 "value" = some (.str vs) →
       jls vs = .ok (.dict vkv) →
       dGet vkv "workloadId" = some wid →
       dGet vkv "versionId" = some vid →
       dGet vkv "workloadVersionName" = some wvn →
       dGet skv1 "property_list" = some (.list pl1) →
       pl1[2]? = some (.dict pkv2) →
       dGet pkv2 "name" = some nmv →
       dGet pkv2 "options" = some ov →
       dGet pkv2 "value" = some vv →
       isStrEq nmv "State" = false →
       decodeDeviceRecord jls (.dict wkv) =
         .error (.actionUnsuccessful "Expected name:State in response to getting deployed workloads.")) ∧
    (∀ (jls : String → Except PyErr JVal)
       (wkv skv0 skv1 pkv0 vkv pkv2 : List (String × JVal))
       (dn dm wid vid wvn ov vv : JVal) (vs : String) (pl0rest pl1 : List JVal),
       dGet wkv "device_name" = some dn →
       dGet wkv "device_model_name" = some dm →
       dGet wkv "service_list" = some (.list [.dict skv0, .dict skv1]) →
       dGet skv0 "property_list" = some (.list (.dict pkv0 :: pl0rest)) →
       dGet pkv0 "value" = some (.str vs) →
       jls vs = .ok (.dict vkv) →
       dGet vkv "workloadId" = some wid →
       dGet vkv "versionId" = some vid →
       dGet vkv "workloadVersionName" = some wvn →
       dGet skv1 "property_list" = some (.list pl1) →
       pl1[2]? = some (.dict pkv2) →
       dGet pkv2 "name" = some (.str "State") →
       dGet pkv2 "options" = some ov →
       dGet pkv2 "value" = some vv →
       jIsList ov = false →
       decodeDeviceRecord jls (.dict wkv) =
         .error (.dataNotAsExpected ("Expected a list, got " ++ pyTypeName ov))) := by
  refine ⟨?_, ?_, ?_⟩
  · intro jls wkv skv0 skv1 pkv0 vkv pkv2 dn dm wid vid wvn vv st vs opts pl0rest pl1
      h1 h2 h3 h4 h5 h6 h7 h8 h9 h10 h11 h12 h13 h14 h15
    rw [decode_reduces jls wkv skv0 skv1 pkv0 vkv pkv2 dn dm wid vid wvn (.str "State")
      (.list opts) vv vs pl0rest pl1 h1 h2 h3 h4 h5 h6 h7 h8 h9 h10 h11 h12 h13 h14]
    simp [isStrEq, complainIfNotAList, h15, Except.bind, Except.map]
  · intro jls wkv skv0 skv1 pkv0 vkv pkv2 dn dm wid vid wvn nmv ov vv vs pl0rest pl1
      h1 h2 h3 h4 h5 h6 h7 h8 h9 h10 h11 h12 h13 h14 hne
    rw [decode_reduces jls wkv skv0 skv1 pkv0 vkv pkv2 dn dm wid vid wvn nmv ov vv vs
      pl0rest pl1 h1 h2 h3 h4 h5 h6 h7 h8 h9 h10 h11 h12 h13 h14]
    simp [hne]
  · intro jls wkv skv0 skv1 pkv0 vkv pkv2 dn dm wid vid wvn ov vv vs pl0rest pl1
      h1 h2 h3 h4 h5 h6 h7 h8 h9 h10 h11 h12 h13 h14 hnl
    rw [decode_reduces jls wkv skv0 skv1 pkv0 vkv pkv2 dn dm wid vid wvn (.str "State")
      ov vv vs pl0rest pl1 h1 h2 h3 h4 h5 h6 h7 h8 h9 h10 h11 h12 h13 h14]
    simp [isStrEq, complainIfNotAList_not_list hnl, Except.bind]

/-- Witness for C4: the spec's example record with
`options = [IDLE, STARTED]` and `value = 1` decodes to state STARTED. -/
theorem spec_C4_state_decoding_witness :
    decodeDeviceRecord jlsW (.dict wkvW) =
      .ok { name := .str "dev", type := .str "docker", _id := .str "wid",
            version_id := .str "vid", version_name := .str "wvn",
            state := .str "STARTED", device_id := .str "dev-id" } := by
  have h := spec_C4_state_decoding.1 jlsW wkvW s0W s1W p0W vkvW p2W
    (.str "dev") (.str "docker") (.str "wid") (.str "vid") (.str "wvn") (.int 1)
    (.str "STARTED") "W" [.str "IDLE", .str "STARTED"] [] [.dict [], .dict [], .dict p2W]
    rfl rfl rfl rfl rfl rfl rfl rfl rfl rfl rfl rfl rfl rfl rfl
  simpa using h

/-- C5: on a record whose initial key check passes, a `service_list` of
any length other than 2 raises `ActionUnsuccessful`, and with length 2 a
third property of the second service named anything but `State` raises
`ActionUnsuccessful`; neither deviation is tolerated with a default. -/
theorem spec_C5_decoder_strictness :
    (∀ (jls : String → Except PyErr JVal) (wkv : List (String × JVal))
       (d1 d2 : JVal) (sl : List JVal),
       dGet wkv "device_name" = some d1 →
       dGet wkv "device_model_name" = some d2 →
       dGet wkv "service_list" = some (.list sl) →
       sl.length ≠ 2 →
       decodeDeviceRecord jls (.dict wkv) =
         .error (.actionUnsuccessful "Expected 2 services in response to getting deployed workloads.")) ∧
    (∀ (jls : String → Except PyErr JVal)
       (wkv skv0 skv1 pkv0 vkv pkv2 : List (String × JVal))
       (dn dm wid vid wvn nmv ov vv : JVal) (vs : String) (pl0rest pl1 : List JVal),
       dGet wkv "device_name" = some dn →
       dGet wkv "device_model_name" = some dm →
       dGet wkv "service_list" = some (.list [.dict skv0, .dict skv1]) →
       dGet skv0 "property_list" = some (.list (.dict pkv0 :: pl0rest)) →
       dGet pkv0 "value" = some (.str vs) →
       jls vs = .ok (.dict vkv) →
       dGet vkv "workloadId" = some wid →
       dGet vkv "versionId" = some vid →
       dGet vkv "workloadVersionName" = some wvn →
       dGet skv1 "property_list" = some (.list pl1) →
       pl1[2]? = some (.dict pkv2) →
       dGet pkv2 "name" = some nmv →
       dGet pkv2 "options" = some ov →
       dGet pkv2 "value" = some vv →
       isStrEq nmv "State" = false →
       decodeDeviceRecord jls (.dict wkv) =
         .error (.actionUnsuccessful "Expected name:State in response to getting deployed workloads.")) := by
  constructor
  · intro jls wkv d1 d2 sl h1 h2 h3 hlen
    exact decode_len jls wkv d1 d2 sl h1 h2 h3 hlen
  · intro jls wkv skv0 skv1 pkv0 vkv pkv2 dn dm wid vid wvn nmv ov vv vs pl0rest pl1
      h1 h2 h3 h4 h5 h6 h7 h8 h9 h10 h11 h12 h13 h14 hne
    rw [decode_reduces jls wkv skv0 skv1 pkv0 vkv pkv2 dn dm wid vid wvn nmv ov vv vs
      pl0rest pl1 h1 h2 h3 h4 h5 h6 h7 h8 h9 h10 h11 h12 h13 h14]
    simp [hne]

/-- Witness for C5 at a length-1 record and a `Status`-named record. -/
theorem spec_C5_decoder_strictness_witness :
    decodeDeviceRecord jls0 (.dict wkvL) =
      .error (.actionUnsuccessful "Expected 2 services in response to getting deployed workloads.") ∧
    decodeDeviceRecord jlsW (.dict wkvM) =
      .error (.actionUnsuccessful "Expected name:State in response to getting deployed workloads.") := by
  constructor
  · exact spec_C5_decoder_strictness.1 jls0 wkvL (.str "dev") (.str "docker")
      [.dict s0W] rfl rfl rfl (by decide)
  · exact spec_C5_decoder_strictness.2 jlsW wkvM s0W s1M p0W vkvW p2M
      (.str "dev") (.str "docker") (.str "wid") (.str "vid") (.str "wvn")
      (.str "Status") (.list [.str "IDLE", .str "STARTED"]) (.int 1) "W"
      [] [.dict [], .dict [], .dict p2M]
      rfl rfl rfl rfl rfl rfl rfl rfl rfl rfl rfl rfl rfl rfl (by decide)

/-! ### Concrete walker runs -/

theorem CRa_run :
    create_node_list_and_tree CRa 5 none = .ok (CRa_tree, [ndn "n1" "N1" "" ["root"]]) := rfl

theorem CRb_run :
    create_node_list_and_tree CRb 5 none =
      .ok (CRb_tree, [ndn "n1" "N1" "S" ["root"], ndn "n2" "N2" "S" ["root"]]) := rfl

theorem RW_run : create_node_list_and_tree RW 5 none = .ok (RW_tree, RW_nl) := rfl

theorem RC7_run : create_node_list_and_tree RC7 5 none = .ok (RC7_tree, RC7_nl) := rfl

/-! ### Reconciler lemmas -/

theorem osome_beq {β : Type} [BEq β] (a b : β) :
    ((some a : Option β) == some b) = (a == b) := rfl

theorem reconcile_false_ok (R : Remote) (jls : String → Except PyErr JVal) (nl : List NDNode) :
    ∀ ps, reconcile_nodes R jls nl false ps = .ok (reconcile_nodes_pure nl ps) := by
  intro ps
  induction ps with
  | nil => rfl
  | cons p ps ih =>
      cases hf : resolveNode nl p <;>
        simp [reconcile_nodes, reconcile_nodes_pure, hf, ih, Except.bind, Except.map]

theorem findDictByValue_serial_self :
    ∀ (nl : List NDNode), (nl.map (fun n => n.serial_number)).Nodup →
      ∀ n ∈ nl, findDictByValue nl (fun m => some m.serial_number) n.serial_number = some n := by
  intro nl
  induction nl with
  | nil => intro _ n hn; cases hn
  | cons m rest ih =>
      intro hnd n hn
      have hnd0 : m.serial_number ∉ rest.map (fun n => n.serial_number) ∧
          (rest.map (fun n => n.serial_number)).Nodup := by
        rw [List.map_cons] at hnd
        exact List.nodup_cons.mp hnd
      rcases List.mem_cons.mp hn with rfl | hmem
      · simp [findDictByValue, List.find?_cons]
      · have hne : (m.serial_number == n.serial_number) = false := by
          apply beq_eq_false_iff_ne.mpr
          intro he
          exact hnd0.1 (he ▸ List.mem_map_of_mem (fun x => x.serial_number) hmem)
        simp only [findDictByValue, List.find?_cons, osome_beq, hne]
        simpa [findDictByValue] using ih hnd0.2 n hmem

theorem reconcile_pure_roundtrip (nl : List NDNode)
    (hnd : (nl.map (fun n => n.serial_number)).Nodup)
    (hne : ∀ n ∈ nl, ¬ n.serial_number = "") :
    ∀ sub : List NDNode, (∀ n ∈ sub, n ∈ nl) →
      reconcile_nodes_pure nl (sub.map (fun n => ⟨some n.serial_number, none, none⟩)) =
        sub.map (fun n => { n with workloads := some [] }) := by
  intro sub
  induction sub with
  | nil => intro _; rfl
  | cons n rest ih =>
      intro hsub
      have hn : n ∈ nl := hsub n (by simp)
      have ht : strTruthy (some n.serial_number) = true := by
        simp [strTruthy]
        exact hne n hn
      simp [reconcile_nodes_pure, resolveNode, ht,
        findDictByValue_serial_self nl hnd n hn, ih (fun y hy => hsub y (by simp [hy]))]

/-- C1 counterexample: two authoritative tree-walker runs on which
reconciling the list of exactly the authoritative serial numbers does not
return all nodes — a node with the empty-string serial number is skipped
(empty output), and duplicated serial numbers make the first node shadow
the second (the second node never appears). -/
theorem spec_C1_counterexample :
    (create_node_list CRa 5 none = .ok [ndn "n1" "N1" "" ["root"]] ∧
     create_node_list_from_node_list CRa jls0 5 [⟨some "", none, none⟩] false = .ok []) ∧
    (create_node_list CRb 5 none =
       .ok [ndn "n1" "N1" "S" ["root"], ndn "n2" "N2" "S" ["root"]] ∧
     create_node_list_from_node_list CRb jls0 5
         [⟨some "S", none, none⟩, ⟨some "S", none, none⟩] false =
       .ok [{ ndn "n1" "N1" "S" ["root"] with workloads := some [] },
            { ndn "n1" "N1" "S" ["root"] with workloads := some [] }]) :=
  ⟨⟨rfl, rfl⟩, rfl, rfl⟩

/-- C1 amended: for an authoritative tree-walker node list whose serial
numbers are all non-empty and pairwise distinct, reconciling the list of
exactly those serial numbers returns all nodes, in the given order, fully
populated (with `workloads` set to `[]`). -/
theorem spec_C1_roundtrip_amended (R : Remote) (jls : String → Except PyErr JVal)
    (fuel : Nat) (tr : NerveTree) (nl : List NDNode)
    (hw : create_node_list_and_tree R fuel none = .ok (tr, nl))
    (hne : ∀ n ∈ nl, ¬ n.serial_number = "")
    (hnd : (nl.map (fun n => n.serial_number)).Nodup) :
    create_node_list_from_node_list R jls fuel
        (nl.map (fun n => ⟨some n.serial_number, none, none⟩)) false =
      .ok (nl.map (fun n => { n with workloads := some [] })) := by
  show (create_node_list_and_tree R fuel none).bind _ = _
  rw [hw]
  show reconcile_nodes R jls nl false _ = _
  rw [reconcile_false_ok, reconcile_pure_roundtrip nl hnd hne nl (fun _ h => h)]

/-- Witness for the amended C1 at the concrete remote `RW`. -/
theorem spec_C1_roundtrip_amended_witness :
    create_node_list_from_node_list RW jls0 5
        (RW_nl.map (fun n => ⟨some n.serial_number, none, none⟩)) false =
      .ok (RW_nl.map (fun n => { n with workloads := some [] })) :=
  spec_C1_roundtrip_amended RW jls0 5 RW_tree RW_nl RW_run
    (by intro n hn; simp [RW_nl] at hn; subst hn; simp [ndn])
    (by simp [RW_nl, ndn])

/-- C2: with the authoritative list fixed by a successful walk, the
reconciler resolves a record with a truthy `serial_number` only through
the serial lookup (any `name` is ignored), falls back to the `name`
lookup only when the serial is absent or empty, silently skips a record
with neither (equal output with the record removed, no gap marker), and a
resolvable record contributes exactly one output entry. -/
theorem spec_C2_resolution_precedence (R : Remote) (jls : String → Except PyErr JVal)
    (fuel : Nat) (tr : NerveTree) (nl : List NDNode)
    (hw : create_node_list_and_tree R fuel none = .ok (tr, nl)) :
    (∀ ps, create_node_list_from_node_list R jls fuel ps false =
       .ok (reconcile_nodes_pure nl ps)) ∧
    (∀ (p : PNode) (s : String), p.serial_number = some s → ¬ s = "" →
       reconcile_nodes_pure nl [p] =
         (findDictByValue nl (fun n => some n.serial_number) s).elim []
           (fun n => [{ n with workloads := some [] }])) ∧
    (∀ (p : PNode) (nm : String), strTruthy p.serial_number = false →
       p.name = some nm → ¬ nm = "" →
       reconcile_nodes_pure nl [p] =
         (findDictByValue nl (fun n => some n.name) nm).elim []
           (fun n => [{ n with workloads := some [] }])) ∧
    (∀ (p : PNode) (xs ys : List PNode), strTruthy p.serial_number = false →
       strTruthy p.name = false →
       reconcile_nodes_pure nl (xs ++ p :: ys) = reconcile_nodes_pure nl (xs ++ ys)) ∧
    (∀ (q : PNode) (xs ys : List PNode), (resolveNode nl q).isSome = true →
       (reconcile_nodes_pure nl (xs ++ q :: ys)).length =
         (reconcile_nodes_pure nl (xs ++ ys)).length + 1) := by
  refine ⟨?_, ?_, ?_, ?_, ?_⟩
  · intro ps
    show (create_node_list_and_tree R fuel none).bind _ = _
    rw [hw]
    show reconcile_nodes R jls nl false ps = _
    rw [reconcile_false_ok]
  · intro p s hp hs
    have ht : strTruthy (some s) = true := by simp [strTruthy, hs]
    cases hf : findDictByValue nl (fun n => some n.serial_number) s <;>
      simp [reconcile_nodes_pure, resolveNode, hp, ht, hf]
  · intro p nm hts hp hnm
    have ht : strTruthy (some nm) = true := by simp [strTruthy, hnm]
    cases hf : findDictByValue nl (fun n => some n.name) nm <;>
      simp [reconcile_nodes_pure, resolveNode, hts, hp, ht, hf]
  · intro p xs ys hts htn
    induction xs with
    | nil => simp [reconcile_nodes_pure, resolveNode, hts, htn]
    | cons x xs ih =>
        cases hf : resolveNode nl x <;> simp [reconcile_nodes_pure, hf, ih]
  · intro q xs ys hq
    induction xs with
    | nil =>
        obtain ⟨fn, hfn⟩ := Option.isSome_iff_exists.mp hq
        simp [reconcile_nodes_pure, hfn]
    | cons x xs ih =>
        cases hf : resolveNode nl x <;> simp [reconcile_nodes_pure, hf, ih]

/-- Witness for C2 at the concrete remote `RW`: a record whose serial
matches but whose name is wrong resolves through the serial; a record
with neither serial nor (non-empty) name is silently dropped. -/
theorem spec_C2_resolution_precedence_witness :
    create_node_list_from_node_list RW jls0 5
        [⟨some "SN1", some "BAD", none⟩, ⟨none, some "", none⟩] false =
      .ok [{ ndn "n1" "N1" "SN1" ["root"] with workloads := some [] }] := by
  have h := (spec_C2_resolution_precedence RW jls0 5 RW_tree RW_nl RW_run).1
    [⟨some "SN1", some "BAD", none⟩, ⟨none, some "", none⟩]
  rw [h]
  rfl

/-! ### Walker invariant (C7) -/

theorem nodeOfChild_shape {ms : Option MsLabels} {i nm : String} {cp : List String}
    {c : RawTreeRec} {n : NDNode} (h : nodeOfChild ms i nm cp c = .ok n) :
    n.name = nm ∧ n.path = cp.dropLast := by
  rcases c with ⟨ci, cn, ct, cd⟩
  cases cd with
  | none => simp [nodeOfChild] at h
  | some d =>
      rcases d with ⟨sn, cs, fw, mo, lids⟩
      cases sn <;> cases cs <;> cases fw <;> cases mo <;> cases lids <;>
        simp only [nodeOfChild] at h <;>
        first
          | exact absurd h (by simp)
          | (cases ms <;> simp [cdll_ok, Except.map] at h <;>
              obtain ⟨rfl⟩ := h.symm <;> exact ⟨rfl, rfl⟩)

theorem child_step_leaves
    {rec : String → String → List String → Except PyErr (List TreeChild × List NDNode)}
    {ms : Option MsLabels} {path : List String} {child : RawTreeRec}
    {tc : TreeChild} {nodes : List NDNode}
    (hrec : ∀ i ty p ch nl, rec i ty p = .ok (ch, nl) → nl.map nodeLeafKey = leavesOfList ch)
    (h : child_step rec ms path child = .ok (tc, nodes)) :
    nodes.map nodeLeafKey = leavesOfChild tc := by
  rcases child with ⟨ci, cn, ct, cd⟩
  rcases ci with _ | i
  · simp [child_step] at h
  rcases cn with _ | nm
  · simp [child_step] at h
  rcases ct with _ | ty
  · simp [child_step] at h
  by_cases hfo : (ty == "folder" || ty == "unassigned") = true
  · have hnode : (ty == "node") = false := by
      rcases (by simpa using hfo : ty = "folder" ∨ ty = "unassigned") with rfl | rfl <;> rfl
    simp only [child_step, hfo, if_true] at h
    cases hg : rec i ty (path ++ [nm]) with
    | error e => rw [hg] at h; exact absurd h (by simp [Except.map])
    | ok pr =>
        obtain ⟨cc, cnl⟩ := pr
        rw [hg] at h
        simp only [Except.map, hnode, Bool.false_eq_true, if_false,
          Except.ok.injEq, Prod.mk.injEq] at h
        obtain ⟨rfl, rfl⟩ := h
        simp [leavesOfChild, hnode, hrec i ty (path ++ [nm]) cc cnl hg]
  · simp only [child_step, hfo, Bool.false_eq_true, if_false] at h
    by_cases hnd : (ty == "node") = true
    · simp only [hnd, if_true] at h
      cases hno : nodeOfChild ms i nm (path ++ [nm]) ⟨some i, some nm, some ty, cd⟩ with
      | error e => rw [hno] at h; exact absurd h (by simp [Except.map])
      | ok n =>
          rw [hno] at h
          simp only [Except.map, Except.ok.injEq, Prod.mk.injEq] at h
          obtain ⟨rfl, rfl⟩ := h
          obtain ⟨hn1, hn2⟩ := nodeOfChild_shape hno
          simp [leavesOfChild, hnd, nodeLeafKey, hn1, hn2]
    · simp only [hnd, Bool.false_eq_true, if_false, Except.ok.injEq, Prod.mk.injEq] at h
      obtain ⟨rfl, rfl⟩ := h
      simp [leavesOfChild, hnd]

theorem walk_children_leaves
    {rec : String → String → List String → Except PyErr (List TreeChild × List NDNode)}
    (hrec : ∀ i ty p ch nl, rec i ty p = .ok (ch, nl) → nl.map nodeLeafKey = leavesOfList ch) :
    ∀ (l : List RawTreeRec) (ms : Option MsLabels) (path : List String)
      (ch : List TreeChild) (nl : List NDNode),
      walk_children rec ms path l = .ok (ch, nl) →
      nl.map nodeLeafKey = leavesOfList ch := by
  intro l
  induction l with
  | nil =>
      intro ms path ch nl h
      simp only [walk_children, Except.ok.injEq, Prod.mk.injEq] at h
      obtain ⟨rfl, rfl⟩ := h
      rfl
  | cons c rest ih =>
      intro ms path ch nl h
      simp only [walk_children] at h
      cases hcs : child_step rec ms path c with
      | error e => rw [hcs] at h; exact absurd h (by simp)
      | ok pr =>
          obtain ⟨tc, nodes⟩ := pr
          rw [hcs] at h
          cases hrest : walk_children rec ms path rest with
          | error e => rw [hrest] at h; exact absurd h (by simp)
          | ok pr2 =>
              obtain ⟨restCh, restNl⟩ := pr2
              rw [hrest] at h
              simp only [Except.ok.injEq, Prod.mk.injEq] at h
              obtain ⟨rfl, rfl⟩ := h
              simp [leavesOfList, child_step_leaves hrec hcs, ih ms path restCh restNl hrest]

theorem get_children_of_leaves (R : Remote) : ∀ f, WalkerP R f := by
  intro f
  induction f with
  | zero =>
      intro ms i ty path ch nl h
      simp [get_children_of] at h
  | succ f ih =>
      intro ms i ty path ch nl h
      simp only [get_children_of] at h
      split at h
      · split at h
        · exact absurd h (by simp)
        · exact walk_children_leaves (fun i' ty' p' ch' nl' h' => ih ms i' ty' p' ch' nl' h')
            _ ms path ch nl h
      · split at h
        · split at h
          · exact absurd h (by simp)
          · exact walk_children_leaves (fun i' ty' p' ch' nl' h' => ih ms i' ty' p' ch' nl' h')
              _ ms path ch nl h
        · exact absurd h (by simp)

/-- C7 counterexample: walking a remote where folder `A` contains a node
also named `A` yields a flat list whose single node has the path
`[root, A]`, which contains the node's own name. -/
theorem spec_C7_counterexample :
    create_node_list RC7 5 none = .ok [ndn "n1" "A" "SA" ["root", "A"]] ∧
    ((ndn "n1" "A" "SA" ["root", "A"]).path.contains
      (ndn "n1" "A" "SA" ["root", "A"]).name) = true := by
  exact ⟨rfl, by decide⟩

/-- C7 amended: every successful tree walk returns a flat node list that
corresponds one-to-one, in order, with the `type = node` leaves of the
returned tree (so its length equals the leaf count), and every node's
stored path is its tree path with the final component — its own name —
removed; the path can still contain the name when an ancestor folder
shares it. -/
theorem spec_C7_walker_amended (R : Remote) (fuel : Nat) (ms : Option MsLabels)
    (tr : NerveTree) (nl : List NDNode)
    (hw : create_node_list_and_tree R fuel ms = .ok (tr, nl)) :
    nl.map nodeLeafKey = leavesOfList tr.children ∧
    nl.length = (leavesOfList tr.children).length := by
  unfold create_node_list_and_tree at hw
  rcases hroot : R.rootResp with _ | ⟨_ | ⟨⟨di, dn, dt, dd⟩, ds⟩⟩
  · simp [hroot] at hw
  · simp [hroot] at hw
  · cases di with
    | none => simp [hroot] at hw
    | some i =>
        cases dn with
        | none => simp [hroot] at hw
        | some nm =>
            cases dt with
            | none => simp [hroot] at hw
            | some ty =>
                cases hg : get_children_of R ms fuel i ty ["root"] with
                | error e => simp [hroot, hg, Except.map] at hw
                | ok pr =>
                    obtain ⟨ch, nodes⟩ := pr
                    simp only [hroot, hg, Except.map, Except.ok.injEq, Prod.mk.injEq] at hw
                    obtain ⟨rfl, rfl⟩ := hw
                    have hk := get_children_of_leaves R fuel ms i ty ["root"] ch nodes hg
                    constructor
                    · simpa using hk
                    · simp [← hk]

/-- Witness for the amended C7 at the concrete remote `RW`. -/
theorem spec_C7_walker_amended_witness :
    RW_nl.map nodeLeafKey = leavesOfList RW_tree.children ∧
    RW_nl.length = (leavesOfList RW_tree.children).length :=
  spec_C7_walker_amended RW 5 none RW_tree RW_nl RW_run

end Nerve
